import Mathlib

/-!
Verification of the ha-listonic integration (`custom_components/listonic`)
against its natural-language specification.

The Python sources are shallowly embedded: the data model becomes Lean
structures, the service handlers and entry-point functions become pure Lean
functions over explicit state, and the outcomes of external effects
(authentication round trips, HTTP fetches) become parameters of sum type.
Definitions follow `custom_components/listonic/__init__.py`,
`scripts/check_credentials.py` and, where a module is absent from the
sources and only its tests remain (`diagnostics.py`, parts of `const.py`,
`coordinator.py`), the specification's description of that module.
-/

namespace Listonic

/-- A shopping-list item, after normalization by the entity mapper
(`ListonicItem` in `api.py`, shape fixed by `tests/test_diagnostics.py`):
`{id: integer, name: string, is_checked: boolean}`. -/
structure ListonicItem where
  id : Int
  name : String
  is_checked : Bool
deriving DecidableEq, Repr

/-- A shopping list (`ListonicList` in `api.py`, shape fixed by
`tests/test_diagnostics.py`): `{id, name, items, is_archived}`. -/
structure ListonicList where
  id : Int
  name : String
  items : List ListonicItem
  is_archived : Bool
deriving DecidableEq, Repr

/-- The API client's token state, as observed by diagnostics
(the mock in `tests/test_diagnostics.py` carries `_token` and
`_refresh_token`, each a string or `None`). -/
structure ListonicApiClient where
  token : Option String
  refresh_token : Option String
deriving DecidableEq, Repr

/-- A naive timestamp, the part of Python's `datetime` the code touches:
diagnostics serializes it with `isoformat()` and everything else only
stores or compares it. -/
structure DateTime where
  year : Nat
  month : Nat
  day : Nat
  hour : Nat
  minute : Nat
  second : Nat
deriving DecidableEq, Repr

/-- Two-digit zero padding, as `datetime.isoformat` renders components. -/
def pad2 (n : Nat) : String :=
  (if n < 10 then "0" else "") ++ toString n

/-- `datetime.isoformat()` for whole-second naive timestamps:
`YYYY-MM-DDTHH:MM:SS` (e.g. `datetime(2024, 1, 15, 10, 30, 0)` renders as
`"2024-01-15T10:30:00"`). -/
def isoformat (t : DateTime) : String :=
  toString t.year ++ "-" ++ pad2 t.month ++ "-" ++ pad2 t.day ++ "T" ++
    pad2 t.hour ++ ":" ++ pad2 t.minute ++ ":" ++ pad2 t.second

/-- Modelled from the spec: `DEFAULT_SCAN_INTERVAL` lives in the absent
`const.py`; its concrete value never matters to any claim, which all treat
it symbolically, so an arbitrary number of seconds stands in. -/
def DEFAULT_SCAN_INTERVAL : Nat := 60

/-- A coordinator as the integration entry points see it
(`ListonicDataUpdateCoordinator`): the accumulated `data` mapping from
list id to list (an association list with the dict's key-uniqueness kept
by construction), the poll bookkeeping, and the polling interval in
seconds (`update_interval` is a `timedelta` in the source; only its
seconds component is ever set or read). Entry points only ever see a
coordinator after its mandatory first refresh, so `data` is a mapping,
not an optional one. -/
structure ListonicDataUpdateCoordinator where
  client : ListonicApiClient
  data : List (Int × ListonicList)
  last_update_success : Bool
  last_update_success_time : Option DateTime
  update_interval : Nat
deriving DecidableEq, Repr

/-- `list_id in coordinator.data`: Python dict membership on the keys. -/
def hasListId (m : List (Int × ListonicList)) (lid : Int) : Bool :=
  m.any fun p => p.1 = lid

/-- Modelled from the spec: `coordinator.py` is absent from the sources.
§4.4: `update_list(list_id, name=...)` performs the remote rename and then
updates the entry for `list_id` in the coordinator's data mapping (rename
applied to the held list). The `LookupError` branch for an absent id is
never reached from the rename service, which guards on membership first. -/
def asyncUpdateList (c : ListonicDataUpdateCoordinator) (lid : Int)
    (nm : String) : ListonicDataUpdateCoordinator :=
  { c with
    data := c.data.map fun p =>
      if p.1 = lid then (p.1, { p.2 with name := nm }) else p }

/-- Outcome of one `rename_list` service call: either some coordinator's
`async_update_list` ran (the handler returns right after), or the loop
fell through to the `_LOGGER.error("List %s not found ...")` branch —
the code's not-found failure signal. -/
inductive RenameOutcome where
  | updated (entryId : String)
  | notFound
deriving DecidableEq, Repr

/-- Result of running the `async_rename_list` handler over the registry
`hass.data[DOMAIN]`: the registry afterwards, the outcome, and the list of
`async_update_list(list_id, name=name)` invocations it made, each tagged
with the entry id of the coordinator it was invoked on. -/
structure RenameEffect where
  registry : List (String × ListonicDataUpdateCoordinator)
  outcome : RenameOutcome
  invocations : List (String × Int × String)
deriving DecidableEq, Repr

/-- The `async_rename_list` service handler (`__init__.py` lines 82–95):
iterate over `hass.data[DOMAIN].values()`; on the first coordinator whose
`data` contains `list_id`, await `async_update_list(list_id, name=name)`
and return; if none matches, log the not-found error. (The handler's
`isinstance` guard skips non-coordinator values; the registry only ever
holds coordinators, so the guard never fires.) -/
def asyncRenameList :
    List (String × ListonicDataUpdateCoordinator) → Int → String → RenameEffect
  | [], _, _ => ⟨[], .notFound, []⟩
  | (eid, c) :: rest, lid, nm =>
    if hasListId c.data lid then
      ⟨(eid, asyncUpdateList c lid nm) :: rest, .updated eid, [(eid, lid, nm)]⟩
    else
      let r := asyncRenameList rest lid nm
      ⟨(eid, c) :: r.registry, r.outcome, r.invocations⟩

theorem asyncRenameList_nil (lid : Int) (nm : String) :
    asyncRenameList [] lid nm = ⟨[], .notFound, []⟩ := rfl

theorem asyncRenameList_cons_pos (eid : String)
    (c : ListonicDataUpdateCoordinator)
    (rest : List (String × ListonicDataUpdateCoordinator)) (lid : Int)
    (nm : String) (h : hasListId c.data lid = true) :
    asyncRenameList ((eid, c) :: rest) lid nm =
      ⟨(eid, asyncUpdateList c lid nm) :: rest, .updated eid,
        [(eid, lid, nm)]⟩ := by
  simp [asyncRenameList, h]

theorem asyncRenameList_cons_neg (eid : String)
    (c : ListonicDataUpdateCoordinator)
    (rest : List (String × ListonicDataUpdateCoordinator)) (lid : Int)
    (nm : String) (h : hasListId c.data lid = false) :
    asyncRenameList ((eid, c) :: rest) lid nm =
      ⟨(eid, c) :: (asyncRenameList rest lid nm).registry,
        (asyncRenameList rest lid nm).outcome,
        (asyncRenameList rest lid nm).invocations⟩ := by
  simp [asyncRenameList, h]

/-- Applying the per-coordinator rename only where `lid` is held: the shape
the registry has after a `rename_list` call that found a unique owner. -/
def renameOwners (regs : List (String × ListonicDataUpdateCoordinator))
    (lid : Int) (nm : String) :
    List (String × ListonicDataUpdateCoordinator) :=
  regs.map fun p =>
    if hasListId p.2.data lid then (p.1, asyncUpdateList p.2 lid nm) else p

theorem renameOwners_of_no_owner
    (regs : List (String × ListonicDataUpdateCoordinator)) (lid : Int)
    (nm : String) (h : ∀ p ∈ regs, hasListId p.2.data lid = false) :
    renameOwners regs lid nm = regs := by
  induction regs with
  | nil => rfl
  | cons hd tl ih =>
    have hc : hasListId hd.2.data lid = false := h _ (List.mem_cons_self _ _)
    have htl := ih fun p hp => h p (List.mem_cons_of_mem _ hp)
    simp only [renameOwners] at htl ⊢
    simp [List.map_cons, hc, htl]

theorem filter_owner_nil_of_no_owner
    (regs : List (String × ListonicDataUpdateCoordinator)) (lid : Int)
    (h : (regs.filter fun p => hasListId p.2.data lid) = []) :
    ∀ p ∈ regs, hasListId p.2.data lid = false := by
  intro p hp
  by_contra hcontra
  have : p ∈ regs.filter fun p => hasListId p.2.data lid :=
    List.mem_filter.2 ⟨hp, by simpa using hcontra⟩
  simp [h] at this

end Listonic

/-- Claim C1: a `rename_list` call whose `list_id` is in no live
coordinator's data mapping takes the not-found failure branch, invokes no
coordinator's `async_update_list`, and leaves the whole registry — in
particular every coordinator's data mapping — unchanged. -/
theorem Listonic.rename_list_not_found
    (regs : List (String × ListonicDataUpdateCoordinator)) (lid : Int)
    (nm : String)
    (h : ∀ p ∈ regs, hasListId p.2.data lid = false) :
    asyncRenameList regs lid nm = ⟨regs, .notFound, []⟩ := by
  induction regs with
  | nil => rfl
  | cons hd tl ih =>
    obtain ⟨eid, c⟩ := hd
    have hc : hasListId c.data lid = false := h _ (List.mem_cons_self _ _)
    rw [asyncRenameList_cons_neg eid c tl lid nm hc,
      ih fun p hp => h p (List.mem_cons_of_mem _ hp)]

/-- Claim C1 witness: a concrete registry of two coordinators, neither
holding list id 7; the call reports not-found and changes nothing. -/
theorem Listonic.rename_list_not_found_witness :
    (∀ p ∈ [("entryA",
        (⟨⟨some "t", none⟩, [(1, ⟨1, "Groceries", [], false⟩)], true, none, 60⟩ :
          ListonicDataUpdateCoordinator)),
      ("entryB",
        (⟨⟨none, none⟩, [], false, none, 30⟩ : ListonicDataUpdateCoordinator))],
        hasListId p.2.data 7 = false) ∧
    asyncRenameList
      [("entryA",
        (⟨⟨some "t", none⟩, [(1, ⟨1, "Groceries", [], false⟩)], true, none, 60⟩ :
          ListonicDataUpdateCoordinator)),
       ("entryB",
        (⟨⟨none, none⟩, [], false, none, 30⟩ : ListonicDataUpdateCoordinator))]
      7 "New" =
      ⟨[("entryA",
        (⟨⟨some "t", none⟩, [(1, ⟨1, "Groceries", [], false⟩)], true, none, 60⟩ :
          ListonicDataUpdateCoordinator)),
       ("entryB",
        (⟨⟨none, none⟩, [], false, none, 30⟩ : ListonicDataUpdateCoordinator))],
       .notFound, []⟩ :=
  ⟨by decide, Listonic.rename_list_not_found _ 7 "New" (by decide)⟩

/-- Claim C3: when exactly one live coordinator's data mapping holds
`list_id`, the `rename_list` handler invokes `async_update_list(list_id,
name=name)` on exactly that coordinator, exactly once (its invocation list
is that one call and the outcome names that entry), and the registry
afterwards equals the input with only the owning coordinator updated —
no other coordinator instance is mutated. -/
theorem Listonic.rename_list_unique_owner
    (regs : List (String × ListonicDataUpdateCoordinator)) (lid : Int)
    (nm : String)
    (huniq : (regs.filter fun p => hasListId p.2.data lid).length = 1) :
    (asyncRenameList regs lid nm).registry = renameOwners regs lid nm ∧
    ∀ eid c, (eid, c) ∈ regs → hasListId c.data lid = true →
      (asyncRenameList regs lid nm).invocations = [(eid, lid, nm)] ∧
      (asyncRenameList regs lid nm).outcome = .updated eid := by
  induction regs with
  | nil => simp at huniq
  | cons hd tl ih =>
    obtain ⟨e, c⟩ := hd
    by_cases h : hasListId c.data lid = true
    · have hfil : (tl.filter fun p => hasListId p.2.data lid) = [] := by
        have h1 := huniq
        simp only [List.filter_cons, h, if_pos, List.length_cons,
          Nat.add_left_eq_self] at h1
        exact List.length_eq_zero.mp h1
      have hno := filter_owner_nil_of_no_owner tl lid hfil
      rw [asyncRenameList_cons_pos e c tl lid nm h]
      refine ⟨?_, ?_⟩
      · simp only [renameOwners, List.map_cons, h, if_pos]
        exact congrArg _ (renameOwners_of_no_owner tl lid nm hno).symm
      · intro eid c' hmem hc'
        rcases List.mem_cons.mp hmem with heq | hmemtl
        · rw [Prod.mk.injEq] at heq
          obtain ⟨rfl, rfl⟩ := heq
          exact ⟨rfl, rfl⟩
        · rw [hno _ hmemtl] at hc'
          exact absurd hc' (by simp)
    · have h' : hasListId c.data lid = false := by simpa using h
      have huniq' : (tl.filter fun p => hasListId p.2.data lid).length = 1 := by
        simpa [List.filter_cons, h'] using huniq
      obtain ⟨ihreg, ihinv⟩ := ih huniq'
      rw [asyncRenameList_cons_neg e c tl lid nm h']
      refine ⟨?_, ?_⟩
      · simp only [renameOwners, List.map_cons, h', if_neg,
          Bool.false_eq_true, not_false_iff]
        exact congrArg _ ihreg
      · intro eid c' hmem hc'
        rcases List.mem_cons.mp hmem with heq | hmemtl
        · rw [Prod.mk.injEq] at heq
          obtain ⟨rfl, rfl⟩ := heq
          rw [h'] at hc'
          exact absurd hc' (by simp)
        · exact ihinv eid c' hmemtl hc'

/-- Claim C3 witness: two coordinators, only `entryA` holds list id 5;
the call updates exactly that one, once. -/
theorem Listonic.rename_list_unique_owner_witness :
    (([("entryA",
        (⟨⟨some "t", none⟩, [(5, ⟨5, "Old", [], false⟩)], true, none, 60⟩ :
          ListonicDataUpdateCoordinator)),
       ("entryB",
        (⟨⟨none, none⟩, [(9, ⟨9, "Other", [], false⟩)], true, none, 30⟩ :
          ListonicDataUpdateCoordinator))].filter
        fun p => hasListId p.2.data 5).length = 1) ∧
    (asyncRenameList
      [("entryA",
        (⟨⟨some "t", none⟩, [(5, ⟨5, "Old", [], false⟩)], true, none, 60⟩ :
          ListonicDataUpdateCoordinator)),
       ("entryB",
        (⟨⟨none, none⟩, [(9, ⟨9, "Other", [], false⟩)], true, none, 30⟩ :
          ListonicDataUpdateCoordinator))] 5 "New").invocations =
      [("entryA", 5, "New")] :=
  ⟨by decide,
    ((Listonic.rename_list_unique_owner _ 5 "New" (by decide)).2 "entryA"
      (⟨⟨some "t", none⟩, [(5, ⟨5, "Old", [], false⟩)], true, none, 60⟩ :
        ListonicDataUpdateCoordinator)
      (by decide) (by decide)).1⟩

namespace Listonic

/-- Outcome of `client.authenticate()` during setup: success, the
distinguished `ListonicAuthError`, or some other exception (which the
`try` around `authenticate` does not catch). -/
inductive AuthOutcome where
  | success
  | listonicAuthError
  | otherFailure
deriving DecidableEq, Repr

/-- Outcome of `coordinator.async_config_entry_first_refresh()`: success,
a `ConfigEntryAuthFailed` escalated from within the refresh, or any other
exception. -/
inductive FirstRefreshOutcome where
  | success
  | configEntryAuthFailed
  | otherFailure
deriving DecidableEq, Repr

/-- How `async_setup_entry` terminates: loaded, aborted with
`ConfigEntryAuthFailed`, aborted with `ConfigEntryNotReady`, or an
exception the function does not handle. -/
inductive SetupOutcome where
  | loaded
  | configEntryAuthFailed
  | configEntryNotReady
  | unhandledError
deriving DecidableEq, Repr

/-- The error-classification skeleton of `async_setup_entry`
(`__init__.py` lines 53–70): `authenticate` wrapped so `ListonicAuthError`
becomes `ConfigEntryAuthFailed`; the first refresh wrapped so
`ConfigEntryAuthFailed` is re-raised as-is and every other exception
becomes `ConfigEntryNotReady`. -/
def asyncSetupEntry (auth : AuthOutcome) (firstRefresh : FirstRefreshOutcome) :
    SetupOutcome :=
  match auth with
  | .listonicAuthError => .configEntryAuthFailed
  | .otherFailure => .unhandledError
  | .success =>
    match firstRefresh with
    | .success => .loaded
    | .configEntryAuthFailed => .configEntryAuthFailed
    | .otherFailure => .configEntryNotReady

/-- The `_async_update_listener` options-update handler (`__init__.py`
lines 109–116): read `CONF_SCAN_INTERVAL` from the entry options with the
default as fallback, and assign `coordinator.update_interval`; nothing
else is touched. `options` is the entry's `CONF_SCAN_INTERVAL` option. -/
def asyncUpdateListenerOnOptions (options : Option Nat)
    (c : ListonicDataUpdateCoordinator) : ListonicDataUpdateCoordinator :=
  { c with update_interval := options.getD DEFAULT_SCAN_INTERVAL }

/-- A Python value arriving in service-call data, as far as the rename
schema's validators discriminate: an integer, a string, or `None`. -/
inductive PyVal where
  | int (n : Int)
  | str (s : String)
  | pynone
deriving DecidableEq, Repr

/-- `vol.Coerce(int)`: an `int` passes through, a string is parsed as an
integer (failure to parse is an `Invalid`), `None` raises and is an
`Invalid`. -/
def coerce_int : PyVal → Option Int
  | .int n => some n
  | .str s => s.toInt?
  | .pynone => none

/-- `cv.positive_int` from homeassistant's `config_validation`, which is
`vol.All(vol.Coerce(int), vol.Range(min=0))`: coerce to `int`, then
require the value to be at least 0 — note `min=0`, so 0 is accepted. -/
def positive_int (v : PyVal) : Option Int :=
  (coerce_int v).bind fun n => if 0 ≤ n then some n else none

/-- `cv.string` from homeassistant's `config_validation`: `None` is
rejected, everything else is coerced with `str(value)` — an empty string
passes unchanged. -/
def cv_string : PyVal → Option String
  | .int n => some (toString n)
  | .str s => some s
  | .pynone => none

/-- `SERVICE_RENAME_LIST_SCHEMA` (`__init__.py` lines 35–40):
`vol.Schema({vol.Required("list_id"): cv.positive_int,
vol.Required(ATTR_NAME): cv.string})` applied to a call carrying both
keys; `some` is the validated `(list_id, name)` pair, `none` a
`vol.Invalid` rejection. -/
def SERVICE_RENAME_LIST_SCHEMA (list_id nm : PyVal) : Option (Int × String) :=
  match positive_int list_id, cv_string nm with
  | some n, some s => some (n, s)
  | none, _ => none
  | _, none => none

theorem positive_int_eq_some (v : PyVal) (n : Int) :
    positive_int v = some n ↔ coerce_int v = some n ∧ 0 ≤ n := by
  cases hc : coerce_int v with
  | none => simp [positive_int, hc]
  | some m =>
    by_cases hm : 0 ≤ m
    · simp only [positive_int, hc]
      constructor
      · intro h
        have h' : (if 0 ≤ m then some m else none) = some n := h
        rw [if_pos hm] at h'
        cases h'
        exact ⟨rfl, hm⟩
      · rintro ⟨h1, _⟩
        show (if 0 ≤ m then some m else none) = some n
        rw [if_pos hm]
        exact h1
    · simp only [positive_int, hc]
      constructor
      · intro h
        have h' : (if 0 ≤ m then some m else none) = some n := h
        rw [if_neg hm] at h'
        cases h'
      · rintro ⟨h1, h2⟩
        have hmn : m = n := by injection h1
        exfalso
        omega

end Listonic

/-- Claim C2: `async_setup_entry` aborts with `ConfigEntryAuthFailed` when
authentication is rejected with `ListonicAuthError`; aborts with
`ConfigEntryNotReady` when the mandatory first refresh fails with a
non-authentication error; and re-raises an authentication failure from the
first refresh as `ConfigEntryAuthFailed`, never converting it into
`ConfigEntryNotReady`. -/
theorem Listonic.setup_entry_failure_classification
    (auth : AuthOutcome) (firstRefresh : FirstRefreshOutcome) :
    (auth = .listonicAuthError →
      asyncSetupEntry auth firstRefresh = .configEntryAuthFailed) ∧
    (auth = .success → firstRefresh = .otherFailure →
      asyncSetupEntry auth firstRefresh = .configEntryNotReady) ∧
    (firstRefresh = .configEntryAuthFailed →
      asyncSetupEntry auth firstRefresh ≠ .configEntryNotReady) ∧
    (auth = .success → firstRefresh = .configEntryAuthFailed →
      asyncSetupEntry auth firstRefresh = .configEntryAuthFailed) := by
  cases auth <;> cases firstRefresh <;>
    refine ⟨?_, ?_, ?_, ?_⟩ <;> intros <;> simp_all [asyncSetupEntry]

/-- Claim C2 witness: the three abort scenarios at concrete outcomes. -/
theorem Listonic.setup_entry_failure_classification_witness :
    asyncSetupEntry .listonicAuthError .success = .configEntryAuthFailed ∧
    asyncSetupEntry .success .otherFailure = .configEntryNotReady ∧
    asyncSetupEntry .success .configEntryAuthFailed =
      .configEntryAuthFailed :=
  ⟨(Listonic.setup_entry_failure_classification .listonicAuthError
      .success).1 rfl,
   (Listonic.setup_entry_failure_classification .success
      .otherFailure).2.1 rfl rfl,
   (Listonic.setup_entry_failure_classification .success
      .configEntryAuthFailed).2.2.2 rfl rfl⟩

/-- Claim C5: the options-update listener sets `update_interval` to the
configured scan interval (the default when the option is absent) and
leaves the client, the accumulated data mapping, `last_update_success`
and `last_update_success_time` unchanged. -/
theorem Listonic.options_update_sets_interval_only
    (options : Option Nat) (c : ListonicDataUpdateCoordinator) :
    (∀ n, options = some n →
      (asyncUpdateListenerOnOptions options c).update_interval = n) ∧
    (options = none →
      (asyncUpdateListenerOnOptions options c).update_interval =
        DEFAULT_SCAN_INTERVAL) ∧
    (asyncUpdateListenerOnOptions options c).client = c.client ∧
    (asyncUpdateListenerOnOptions options c).data = c.data ∧
    (asyncUpdateListenerOnOptions options c).last_update_success =
      c.last_update_success ∧
    (asyncUpdateListenerOnOptions options c).last_update_success_time =
      c.last_update_success_time := by
  refine ⟨?_, ?_, rfl, rfl, rfl, rfl⟩
  · rintro n rfl; rfl
  · rintro rfl; rfl

/-- Claim C5 witness: a concrete coordinator and a configured interval of
120 seconds; only `update_interval` changes. -/
theorem Listonic.options_update_sets_interval_only_witness :
    (asyncUpdateListenerOnOptions (some 120)
      (⟨⟨some "t", some "r"⟩, [(5, ⟨5, "Old", [], false⟩)], true,
        some ⟨2024, 1, 15, 10, 30, 0⟩, 60⟩ :
        ListonicDataUpdateCoordinator)).update_interval = 120 ∧
    (asyncUpdateListenerOnOptions (some 120)
      (⟨⟨some "t", some "r"⟩, [(5, ⟨5, "Old", [], false⟩)], true,
        some ⟨2024, 1, 15, 10, 30, 0⟩, 60⟩ :
        ListonicDataUpdateCoordinator)).data =
      [(5, ⟨5, "Old", [], false⟩)] :=
  ⟨(Listonic.options_update_sets_interval_only (some 120) _).1 120 rfl,
   (Listonic.options_update_sets_interval_only (some 120) _).2.2.2.1⟩

/-- Claim C6 counterexample: the rename schema accepts `list_id = 0`
(not a positive integer — homeassistant's `cv.positive_int` has `min=0`)
together with the empty string as `name` (`cv.string` never checks for
emptiness), so a call with a non-positive id and an empty name passes
validation, contrary to the claim. -/
theorem Listonic.rename_list_schema_counterexample :
    SERVICE_RENAME_LIST_SCHEMA (PyVal.int 0) (PyVal.str "") =
      some (0, "") := rfl

/-- Claim C6 as amended: validation accepts the call exactly when
`list_id` coerces to a non-negative integer and `name` is a value
`str()` accepts (`None` is rejected, the empty string is not); a call
with a negative or non-integer `list_id`, or a `None` name, is rejected
before any coordinator is touched. -/
theorem Listonic.rename_list_schema_accepts (lid nm : PyVal) :
    (∀ n s, SERVICE_RENAME_LIST_SCHEMA lid nm = some (n, s) →
      0 ≤ n ∧ coerce_int lid = some n ∧ cv_string nm = some s) ∧
    (∀ n, coerce_int lid = some n → n < 0 →
      SERVICE_RENAME_LIST_SCHEMA lid nm = none) ∧
    (coerce_int lid = none → SERVICE_RENAME_LIST_SCHEMA lid nm = none) ∧
    (cv_string nm = none → SERVICE_RENAME_LIST_SCHEMA lid nm = none) := by
  refine ⟨?_, ?_, ?_, ?_⟩
  · intro n s h
    cases hp : positive_int lid with
    | none => simp [SERVICE_RENAME_LIST_SCHEMA, hp] at h
    | some m =>
      cases hs : cv_string nm with
      | none => simp [SERVICE_RENAME_LIST_SCHEMA, hp, hs] at h
      | some s' =>
        simp only [SERVICE_RENAME_LIST_SCHEMA, hp, hs,
          Option.some.injEq, Prod.mk.injEq] at h
        obtain ⟨hmn, hss⟩ := h
        subst hmn
        subst hss
        obtain ⟨hc, hnn⟩ := (positive_int_eq_some lid _).mp hp
        exact ⟨hnn, hc, rfl⟩
  · intro n hc hneg
    have hp : positive_int lid = none := by
      cases hq : positive_int lid with
      | none => rfl
      | some m =>
        exfalso
        obtain ⟨hc', hm⟩ := (positive_int_eq_some lid m).mp hq
        rw [hc] at hc'
        have hnm : n = m := by injection hc'
        omega
    simp [SERVICE_RENAME_LIST_SCHEMA, hp]
  · intro hc
    have hp : positive_int lid = none := by
      simp [positive_int, hc]
    simp [SERVICE_RENAME_LIST_SCHEMA, hp]
  · intro hs
    cases hp : positive_int lid <;> simp [SERVICE_RENAME_LIST_SCHEMA, hp, hs]

/-- Claim C6 amended witness: concrete accept and reject cases — id 5 with
name "x" accepted and well-classified; id −1, a `None` id and a `None`
name each rejected. -/
theorem Listonic.rename_list_schema_accepts_witness :
    (0 ≤ (5 : Int) ∧ coerce_int (PyVal.int 5) = some 5 ∧
      cv_string (PyVal.str "x") = some "x") ∧
    SERVICE_RENAME_LIST_SCHEMA (PyVal.int (-1)) (PyVal.str "x") = none ∧
    SERVICE_RENAME_LIST_SCHEMA PyVal.pynone (PyVal.str "x") = none ∧
    SERVICE_RENAME_LIST_SCHEMA (PyVal.int 5) PyVal.pynone = none :=
  ⟨(Listonic.rename_list_schema_accepts (PyVal.int 5) (PyVal.str "x")).1
      5 "x" rfl,
   (Listonic.rename_list_schema_accepts (PyVal.int (-1))
      (PyVal.str "x")).2.1 (-1) rfl (by decide),
   (Listonic.rename_list_schema_accepts PyVal.pynone
      (PyVal.str "x")).2.2.1 rfl,
   (Listonic.rename_list_schema_accepts (PyVal.int 5)
      PyVal.pynone).2.2.2 rfl⟩

namespace Listonic

/-- The process-wide state the entry points touch: `hass.data[DOMAIN]` as
an association list from entry id to coordinator (key-unique by
construction, like the Python dict), whether the `rename_list` service is
currently registered (`hass.services.has_service`), and a count of
`async_register` calls made so far (to state that registration happens at
most once while entries stay loaded). -/
structure HassState where
  registry : List (String × ListonicDataUpdateCoordinator)
  serviceRegistered : Bool
  registerCount : Nat
deriving DecidableEq, Repr

/-- `hass.data[DOMAIN].get(eid)`: lookup by entry id. -/
def lookupEntry :
    List (String × ListonicDataUpdateCoordinator) → String →
      Option ListonicDataUpdateCoordinator
  | [], _ => none
  | (e, c) :: rest, eid => if e = eid then some c else lookupEntry rest eid

/-- `eid in hass.data[DOMAIN]`. -/
def containsEntry (r : List (String × ListonicDataUpdateCoordinator))
    (eid : String) : Bool :=
  (lookupEntry r eid).isSome

/-- `hass.data[DOMAIN][eid] = c`: dict assignment — overwrite in place
when the key exists (keys are unique, so replacing the first occurrence is
the dict's behavior), append at the end otherwise. -/
def insertEntry :
    List (String × ListonicDataUpdateCoordinator) → String →
      ListonicDataUpdateCoordinator →
      List (String × ListonicDataUpdateCoordinator)
  | [], eid, c => [(eid, c)]
  | (e, c') :: rest, eid, c =>
    if e = eid then (eid, c) :: rest else (e, c') :: insertEntry rest eid c

/-- `hass.data[DOMAIN].pop(eid)`: remove the binding for `eid` (keys are
unique, so removing every occurrence coincides with the dict's `pop`). -/
def removeEntry :
    List (String × ListonicDataUpdateCoordinator) → String →
      List (String × ListonicDataUpdateCoordinator)
  | [], _ => []
  | (e, c) :: rest, eid =>
    if e = eid then removeEntry rest eid else (e, c) :: removeEntry rest eid

/-- One host-runtime event against the registry: a successful
`async_setup_entry` storing its coordinator (the earlier failure paths
abort before reaching the registry code), or an `async_unload_entry` whose
platform unload returned `unloadOk`. -/
inductive HassOp where
  | setup (eid : String) (c : ListonicDataUpdateCoordinator)
  | unload (eid : String) (unloadOk : Bool)
deriving DecidableEq, Repr

/-- The registry/service effect of one entry-point call (`__init__.py`
lines 74–102 and 119–131): setup stores the coordinator under the entry id
and registers the `rename_list` service only when `has_service` is false;
unload, when the platforms unloaded, pops the entry and removes the
service exactly when the registry emptied. -/
def step (s : HassState) : HassOp → HassState
  | .setup eid c =>
    { registry := insertEntry s.registry eid c
      serviceRegistered := true
      registerCount :=
        if s.serviceRegistered then s.registerCount else s.registerCount + 1 }
  | .unload eid unloadOk =>
    if unloadOk then
      let r := removeEntry s.registry eid
      if r.isEmpty then
        { registry := r, serviceRegistered := false
          registerCount := s.registerCount }
      else
        { registry := r, serviceRegistered := s.serviceRegistered
          registerCount := s.registerCount }
    else s

/-- The state before the first entry is set up: no `DOMAIN` key in
`hass.data`, no `rename_list` service. -/
def initState : HassState := ⟨[], false, 0⟩

/-- The state after a sequence of entry-point calls from a fresh start. -/
def runOps (ops : List HassOp) : HassState :=
  ops.foldl step initState

theorem lookupEntry_insertEntry
    (r : List (String × ListonicDataUpdateCoordinator)) (eid : String)
    (c : ListonicDataUpdateCoordinator) :
    lookupEntry (insertEntry r eid c) eid = some c := by
  induction r with
  | nil => simp [insertEntry, lookupEntry]
  | cons hd tl ih =>
    obtain ⟨e, c'⟩ := hd
    by_cases he : e = eid
    · subst he
      simp [insertEntry, lookupEntry]
    · simpa [insertEntry, lookupEntry, he] using ih

theorem lookupEntry_removeEntry
    (r : List (String × ListonicDataUpdateCoordinator)) (eid : String) :
    lookupEntry (removeEntry r eid) eid = none := by
  induction r with
  | nil => rfl
  | cons hd tl ih =>
    obtain ⟨e, c⟩ := hd
    by_cases he : e = eid
    · simpa [removeEntry, he] using ih
    · simpa [removeEntry, lookupEntry, he] using ih

theorem insertEntry_ne_nil
    (r : List (String × ListonicDataUpdateCoordinator)) (eid : String)
    (c : ListonicDataUpdateCoordinator) :
    (insertEntry r eid c).isEmpty = false := by
  cases r with
  | nil => rfl
  | cons hd tl =>
    obtain ⟨e, c'⟩ := hd
    by_cases he : e = eid <;> simp [insertEntry, he]

theorem removeEntry_ne_nil_of_parent
    (r : List (String × ListonicDataUpdateCoordinator)) (eid : String)
    (h : (removeEntry r eid).isEmpty = false) : r.isEmpty = false := by
  cases r with
  | nil => simp [removeEntry] at h
  | cons hd tl => simp

/-- The registry/service invariant: the `rename_list` service is
registered exactly when at least one entry is loaded. -/
def serviceMatchesRegistry (s : HassState) : Prop :=
  s.serviceRegistered = !s.registry.isEmpty

theorem serviceMatchesRegistry_step (s : HassState) (op : HassOp)
    (h : serviceMatchesRegistry s) : serviceMatchesRegistry (step s op) := by
  cases op with
  | setup eid c =>
    simp only [serviceMatchesRegistry, step, insertEntry_ne_nil,
      Bool.not_false]
  | unload eid unloadOk =>
    cases unloadOk with
    | false => simpa [step] using h
    | true =>
      by_cases hr : (removeEntry s.registry eid).isEmpty = true
      · simp [serviceMatchesRegistry, step, hr]
      · have hr' : (removeEntry s.registry eid).isEmpty = false := by
          simpa using hr
        have hp := removeEntry_ne_nil_of_parent s.registry eid hr'
        rw [serviceMatchesRegistry] at h
        simp [serviceMatchesRegistry, step, hr', h, hp]

theorem serviceMatchesRegistry_runOps (ops : List HassOp) :
    serviceMatchesRegistry (runOps ops) := by
  have general : ∀ (l : List HassOp) (s : HassState),
      serviceMatchesRegistry s → serviceMatchesRegistry (l.foldl step s) := by
    intro l
    induction l with
    | nil => intro s hs; exact hs
    | cons op rest ih =>
      intro s hs
      exact ih (step s op) (serviceMatchesRegistry_step s op hs)
  exact general ops initState rfl

end Listonic

namespace Listonic

/-- A sample coordinator for concrete instantiations. -/
def sampleCoordA : ListonicDataUpdateCoordinator :=
  ⟨⟨some "tokA", none⟩, [(5, ⟨5, "Groceries", [], false⟩)], true, none, 60⟩

/-- A second sample coordinator for concrete instantiations. -/
def sampleCoordB : ListonicDataUpdateCoordinator :=
  ⟨⟨none, some "refB"⟩, [(9, ⟨9, "Hardware", [], true⟩)], false, none, 30⟩

end Listonic

/-- Claim C8: from a fresh start, after any sequence of setups and
unloads, the `rename_list` service is registered exactly when at least one
entry is loaded; a further setup stores its coordinator under its entry id
and, when the service is already registered, performs no second
registration; a further successful unload removes that entry's
coordinator, keeps the service when entries remain, and removes the
service when it unloaded the last entry. -/
theorem Listonic.registry_service_lifecycle (ops : List HassOp) :
    ((runOps ops).serviceRegistered = !(runOps ops).registry.isEmpty) ∧
    (∀ eid c,
      lookupEntry (step (runOps ops) (.setup eid c)).registry eid = some c) ∧
    (∀ eid,
      lookupEntry (step (runOps ops) (.unload eid true)).registry eid =
        none) ∧
    (∀ eid,
      (step (runOps ops) (.unload eid true)).registry.isEmpty = false →
      (step (runOps ops) (.unload eid true)).serviceRegistered = true) ∧
    (∀ eid,
      (step (runOps ops) (.unload eid true)).registry.isEmpty = true →
      (step (runOps ops) (.unload eid true)).serviceRegistered = false) ∧
    (∀ eid c, (runOps ops).serviceRegistered = true →
      (step (runOps ops) (.setup eid c)).registerCount =
        (runOps ops).registerCount) := by
  refine ⟨serviceMatchesRegistry_runOps ops, ?_, ?_, ?_, ?_, ?_⟩
  · intro eid c
    exact lookupEntry_insertEntry _ eid c
  · intro eid
    by_cases hr :
        (removeEntry (runOps ops).registry eid).isEmpty = true <;>
      simp [step, hr, lookupEntry_removeEntry]
  · intro eid hne
    have hinv :=
      serviceMatchesRegistry_step (runOps ops) (.unload eid true)
        (serviceMatchesRegistry_runOps ops)
    rw [serviceMatchesRegistry] at hinv
    rw [hinv, hne]
    rfl
  · intro eid hem
    have hinv :=
      serviceMatchesRegistry_step (runOps ops) (.unload eid true)
        (serviceMatchesRegistry_runOps ops)
    rw [serviceMatchesRegistry] at hinv
    rw [hinv, hem]
    rfl
  · intro eid c h
    simp [step, h]

/-- Claim C8 witness: concrete lifecycles — unloading the only entry
empties the registry and drops the service; with two entries loaded,
unloading one keeps the service; a second setup does not register the
service again. -/
theorem Listonic.registry_service_lifecycle_witness :
    lookupEntry
      (step (runOps [HassOp.setup "a" sampleCoordA])
        (.unload "a" true)).registry "a" = none ∧
    (step (runOps [HassOp.setup "a" sampleCoordA])
      (.unload "a" true)).serviceRegistered = false ∧
    (step (runOps [HassOp.setup "a" sampleCoordA,
        HassOp.setup "b" sampleCoordB])
      (.unload "a" true)).serviceRegistered = true ∧
    (step (runOps [HassOp.setup "a" sampleCoordA])
      (.setup "b" sampleCoordB)).registerCount =
      (runOps [HassOp.setup "a" sampleCoordA]).registerCount :=
  ⟨(Listonic.registry_service_lifecycle
      [HassOp.setup "a" sampleCoordA]).2.2.1 "a",
   (Listonic.registry_service_lifecycle
      [HassOp.setup "a" sampleCoordA]).2.2.2.2.1 "a" (by decide),
   (Listonic.registry_service_lifecycle
      [HassOp.setup "a" sampleCoordA,
        HassOp.setup "b" sampleCoordB]).2.2.2.1 "a" (by decide),
   (Listonic.registry_service_lifecycle
      [HassOp.setup "a" sampleCoordA]).2.2.2.2.2 "b" sampleCoordB
      (by decide)⟩

namespace Listonic

/-- The coordinator as the diagnostics module reads it: the mock fixtures
in `tests/test_diagnostics.py` carry a client with optional tokens, a
`data` attribute that may be a mapping, an empty mapping or `None`, the
last-update flag and the optional last-success timestamp. -/
structure DiagCoordinator where
  client : ListonicApiClient
  data : Option (List (Int × ListonicList))
  last_update_success : Bool
  last_update_success_time : Option DateTime
deriving DecidableEq, Repr

/-- The config entry as diagnostics reads it: configured credentials
under `CONF_EMAIL`/`CONF_PASSWORD`, the `CONF_SCAN_INTERVAL` option, and
the live coordinator in `runtime_data`. -/
structure DiagConfigEntry where
  email : String
  password : String
  scan_interval_option : Option Nat
  runtime_data : DiagCoordinator
deriving DecidableEq, Repr

/-- Per-list block of the `lists.details` section
(`tests/test_diagnostics.py` lines 116–146): id, item counts split by
checked state, and the archived flag — no list or item names. -/
structure ListDetail where
  list_id : Int
  item_count : Nat
  checked_count : Nat
  unchecked_count : Nat
  is_archived : Bool
deriving DecidableEq, Repr

/-- The `lists` section: `count` and `details`. -/
structure ListsInfo where
  count : Nat
  details : List ListDetail
deriving DecidableEq, Repr

/-- The `config_entry` section: the credential fields after redaction. -/
structure ConfigEntrySection where
  email : String
  password : String
deriving DecidableEq, Repr

/-- The `coordinator` section: update status, optional ISO-format last
update time, and the effective polling interval in seconds. -/
structure CoordinatorInfo where
  last_update_success : Bool
  last_update_time : Option String
  update_interval_seconds : Nat
deriving DecidableEq, Repr

/-- The `authentication` section: token presence flags only, never the
tokens themselves. -/
structure AuthSection where
  has_token : Bool
  has_refresh_token : Bool
deriving DecidableEq, Repr

/-- The diagnostics snapshot: the four top-level sections the tests
enumerate. -/
structure Diagnostics where
  config_entry : ConfigEntrySection
  lists : ListsInfo
  coordinator : CoordinatorInfo
  authentication : AuthSection
deriving DecidableEq, Repr

/-- The redaction marker homeassistant substitutes for censored fields. -/
def REDACTED : String := "**REDACTED**"

/-- The detail block for one held list. -/
def listDetailOf (lid : Int) (l : ListonicList) : ListDetail :=
  { list_id := lid
    item_count := l.items.length
    checked_count := (l.items.filter fun i => i.is_checked).length
    unchecked_count := (l.items.filter fun i => !i.is_checked).length
    is_archived := l.is_archived }

/-- Modelled from the spec: `diagnostics.py` is absent from the sources;
only `tests/test_diagnostics.py` remains. §6: the coordinator exposes a
read-only snapshot `{client: {has_token, has_refresh_token}, data,
last_update_success, last_update_success_time, update_interval_seconds}`,
and diagnostics redacts the credential fields (email, password) before
display; the tests pin the sections down to redacted `config_entry`
credentials, a `lists` section of counts (tolerating `data` being `{}` or
`None`), a `coordinator` section with `last_update_success`, the
`isoformat()` of the last success time (or `None`), and the scan interval
from the entry options with the configured default as fallback, and an
`authentication` section with token-presence booleans. -/
def async_get_config_entry_diagnostics (entry : DiagConfigEntry) :
    Diagnostics :=
  let coordinator := entry.runtime_data
  let dataList := coordinator.data.getD []
  { config_entry := ⟨REDACTED, REDACTED⟩
    lists :=
      ⟨dataList.length, dataList.map fun p => listDetailOf p.1 p.2⟩
    coordinator :=
      ⟨coordinator.last_update_success,
        coordinator.last_update_success_time.map isoformat,
        entry.scan_interval_option.getD DEFAULT_SCAN_INTERVAL⟩
    authentication :=
      ⟨coordinator.client.token.isSome,
        coordinator.client.refresh_token.isSome⟩ }

/-- Every string occurring anywhere in a diagnostics snapshot: the two
`config_entry` fields and the optional ISO timestamp — every other field
of every section is a number or a boolean. -/
def snapshotStrings (d : Diagnostics) : List String :=
  d.config_entry.email :: d.config_entry.password ::
    d.coordinator.last_update_time.toList

/-- The diagnostics entry mirroring the test fixtures
(`mock_config_entry` with `sample_lists`). -/
def sampleDiagEntry : DiagConfigEntry :=
  { email := "user@example.com"
    password := "supersecretpassword"
    scan_interval_option := none
    runtime_data :=
      { client := ⟨some "test_access_token", some "test_refresh_token"⟩
        data := some
          [(123, ⟨123, "Groceries",
            [⟨1, "Milk", false⟩, ⟨2, "Bread", true⟩, ⟨3, "Eggs", true⟩],
            false⟩),
           (456, ⟨456, "Hardware", [⟨4, "Screws", false⟩], true⟩)]
        last_update_success := true
        last_update_success_time := some ⟨2024, 1, 15, 10, 30, 0⟩ } }

end Listonic

/-- Claim C4: the diagnostics snapshot redacts the credential fields — the
`config_entry` values for email and password are the redaction marker; as
long as the configured credentials do not coincidentally equal the marker
or the rendered timestamp, the reported values differ from the raw
credentials and neither raw credential string appears anywhere in the
snapshot. -/
theorem Listonic.diagnostics_redacts_credentials (entry : DiagConfigEntry)
    (hemail_red : entry.email ≠ REDACTED)
    (hpass_red : entry.password ≠ REDACTED)
    (hemail_iso : ∀ t,
      entry.runtime_data.last_update_success_time = some t →
      entry.email ≠ isoformat t)
    (hpass_iso : ∀ t,
      entry.runtime_data.last_update_success_time = some t →
      entry.password ≠ isoformat t) :
    (async_get_config_entry_diagnostics entry).config_entry.email =
      REDACTED ∧
    (async_get_config_entry_diagnostics entry).config_entry.password =
      REDACTED ∧
    (async_get_config_entry_diagnostics entry).config_entry.email ≠
      entry.email ∧
    (async_get_config_entry_diagnostics entry).config_entry.password ≠
      entry.password ∧
    entry.email ∉
      snapshotStrings (async_get_config_entry_diagnostics entry) ∧
    entry.password ∉
      snapshotStrings (async_get_config_entry_diagnostics entry) := by
  refine ⟨rfl, rfl, fun h => hemail_red h.symm, fun h => hpass_red h.symm,
    ?_, ?_⟩
  · intro hmem
    simp only [snapshotStrings, async_get_config_entry_diagnostics,
      List.mem_cons] at hmem
    rcases hmem with h | h | h
    · exact hemail_red h
    · exact hemail_red h
    · cases ht : entry.runtime_data.last_update_success_time with
      | none => rw [ht] at h; simp at h
      | some t =>
        rw [ht] at h
        simp at h
        exact hemail_iso t ht h
  · intro hmem
    simp only [snapshotStrings, async_get_config_entry_diagnostics,
      List.mem_cons] at hmem
    rcases hmem with h | h | h
    · exact hpass_red h
    · exact hpass_red h
    · cases ht : entry.runtime_data.last_update_success_time with
      | none => rw [ht] at h; simp at h
      | some t =>
        rw [ht] at h
        simp at h
        exact hpass_iso t ht h

/-- Claim C4 witness: the test fixture credentials are redacted and appear
nowhere in the snapshot. -/
theorem Listonic.diagnostics_redacts_credentials_witness :
    (async_get_config_entry_diagnostics sampleDiagEntry).config_entry.email
      = REDACTED ∧
    (async_get_config_entry_diagnostics
      sampleDiagEntry).config_entry.password = REDACTED ∧
    "user@example.com" ∉
      snapshotStrings (async_get_config_entry_diagnostics sampleDiagEntry) ∧
    "supersecretpassword" ∉
      snapshotStrings
        (async_get_config_entry_diagnostics sampleDiagEntry) :=
  have h := Listonic.diagnostics_redacts_credentials sampleDiagEntry
    (by decide) (by decide)
    (by intro t ht; cases ht; decide)
    (by intro t ht; cases ht; decide)
  ⟨h.1, h.2.1, h.2.2.2.2.1, h.2.2.2.2.2⟩

/-- Claim C7: the diagnostics snapshot reports `has_token` exactly when
the client holds an access token and `has_refresh_token` exactly when it
holds a refresh token; reports `last_update_success` as the coordinator's
flag; reports `last_update_time` as `None` exactly when
`last_update_success_time` is `None` and otherwise as its ISO rendering;
and reports `update_interval_seconds` as the configured scan-interval
option when present and the default otherwise. -/
theorem Listonic.diagnostics_coordinator_info (entry : DiagConfigEntry) :
    ((async_get_config_entry_diagnostics entry).authentication.has_token =
        true ↔
      ∃ t, entry.runtime_data.client.token = some t) ∧
    ((async_get_config_entry_diagnostics
        entry).authentication.has_refresh_token = true ↔
      ∃ t, entry.runtime_data.client.refresh_token = some t) ∧
    ((async_get_config_entry_diagnostics
        entry).coordinator.last_update_success =
      entry.runtime_data.last_update_success) ∧
    ((async_get_config_entry_diagnostics
        entry).coordinator.last_update_time = none ↔
      entry.runtime_data.last_update_success_time = none) ∧
    (∀ t, entry.runtime_data.last_update_success_time = some t →
      (async_get_config_entry_diagnostics
        entry).coordinator.last_update_time = some (isoformat t)) ∧
    (∀ n, entry.scan_interval_option = some n →
      (async_get_config_entry_diagnostics
        entry).coordinator.update_interval_seconds = n) ∧
    (entry.scan_interval_option = none →
      (async_get_config_entry_diagnostics
        entry).coordinator.update_interval_seconds =
        DEFAULT_SCAN_INTERVAL) := by
  refine ⟨?_, ?_, rfl, ?_, ?_, ?_, ?_⟩
  · simp [async_get_config_entry_diagnostics, Option.isSome_iff_exists]
  · simp [async_get_config_entry_diagnostics, Option.isSome_iff_exists]
  · simp [async_get_config_entry_diagnostics]
  · intro t ht
    simp [async_get_config_entry_diagnostics, ht]
  · intro n hn
    simp [async_get_config_entry_diagnostics, hn]
  · intro hn
    simp [async_get_config_entry_diagnostics, hn]

/-- Claim C7 witness: the test fixture entry — both tokens held, a
successful update at 2024-01-15 10:30:00 rendered in ISO format, and the
default interval with no option set. -/
theorem Listonic.diagnostics_coordinator_info_witness :
    (∃ t, sampleDiagEntry.runtime_data.client.token = some t) ∧
    (async_get_config_entry_diagnostics
      sampleDiagEntry).coordinator.last_update_time =
      some "2024-01-15T10:30:00" ∧
    (async_get_config_entry_diagnostics
      sampleDiagEntry).coordinator.update_interval_seconds =
      DEFAULT_SCAN_INTERVAL :=
  ⟨(Listonic.diagnostics_coordinator_info sampleDiagEntry).1.mp rfl,
   by
    rw [(Listonic.diagnostics_coordinator_info sampleDiagEntry).2.2.2.2.1
      ⟨2024, 1, 15, 10, 30, 0⟩ rfl]
    rfl,
   (Listonic.diagnostics_coordinator_info sampleDiagEntry).2.2.2.2.2.2
     rfl⟩

/-- Claim C9: the diagnostics snapshot is total over degenerate
coordinator data — with the data mapping `None` or empty it still
produces a `lists` section with count 0 and no details. -/
theorem Listonic.diagnostics_total_on_degenerate_data
    (entry : DiagConfigEntry)
    (h : entry.runtime_data.data = none ∨
      entry.runtime_data.data = some []) :
    (async_get_config_entry_diagnostics entry).lists.count = 0 ∧
    (async_get_config_entry_diagnostics entry).lists.details = [] := by
  rcases h with h | h <;> simp [async_get_config_entry_diagnostics, h]

/-- Claim C9 witness: the fixture entry with its coordinator data set to
`None` (the `test_none_coordinator_data` scenario). -/
theorem Listonic.diagnostics_total_on_degenerate_data_witness :
    (async_get_config_entry_diagnostics
      { sampleDiagEntry with
        runtime_data :=
          { sampleDiagEntry.runtime_data with data := none } }).lists.count
      = 0 ∧
    (async_get_config_entry_diagnostics
      { sampleDiagEntry with
        runtime_data :=
          { sampleDiagEntry.runtime_data with
            data := none } }).lists.details = [] :=
  Listonic.diagnostics_total_on_degenerate_data _ (Or.inl rfl)

namespace CheckCredentials

/-- The OAuth credential triple `extract_credentials` returns when the
regex matches the webapp bundle (`scripts/check_credentials.py`): always
all three keys. -/
structure ExtractedCredentials where
  client_id : String
  client_secret : String
  redirect_uri : String
deriving DecidableEq, Repr

/-- What `get_current_credentials` reads out of `const.py`: each key is
present only if its regex matched, so each field is optional. -/
structure CurrentCredentials where
  client_id : Option String
  client_secret : Option String
  redirect_uri : Option String
deriving DecidableEq, Repr

/-- Python's `new_credentials == current_credentials` dict comparison:
the extracted dict always holds exactly the three keys, so equality holds
iff the current dict holds all three with the same values. -/
def credentialsEqual (n : ExtractedCredentials) (c : CurrentCredentials) :
    Prop :=
  c.client_id = some n.client_id ∧
    c.client_secret = some n.client_secret ∧
    c.redirect_uri = some n.redirect_uri

instance (n : ExtractedCredentials) (c : CurrentCredentials) :
    Decidable (credentialsEqual n c) := by
  unfold credentialsEqual; infer_instance

/-- What one run of the script's `main()` produces: its exit code, and
whether it called `update_credentials` (the only path that writes
`const.py` — `CONST_FILE.write_text`). -/
structure MainResult where
  exitCode : Nat
  wroteFile : Bool
deriving DecidableEq, Repr

/-- The control flow of `main()` (`scripts/check_credentials.py` lines
96–140), with the two network round-trips abstracted into their results:
`appJsUrl` is what `get_app_js_url()` found, `extracted` what
`extract_credentials` pulled from the fetched bundle, `current` what
`get_current_credentials()` read from `const.py`. No bundle URL or no
extractable credentials exit 1 without writing; matching credentials exit
0 without writing; differing credentials call `update_credentials` and
exit 2. -/
def main (appJsUrl : Option String)
    (extracted : Option ExtractedCredentials)
    (current : CurrentCredentials) : MainResult :=
  match appJsUrl with
  | none => ⟨1, false⟩
  | some _ =>
    match extracted with
    | none => ⟨1, false⟩
    | some n =>
      if credentialsEqual n current then ⟨0, false⟩ else ⟨2, true⟩

end CheckCredentials

/-- Claim C10: the credential-check script writes `const.py` only when the
extracted credentials differ from the current ones — equal credentials
exit 0 with no write, differing ones write and exit 2, and failure to find
the bundle or to extract credentials exits 1 with no write. -/
theorem CheckCredentials.main_write_discipline
    (appJsUrl : Option String)
    (extracted : Option CheckCredentials.ExtractedCredentials)
    (current : CheckCredentials.CurrentCredentials) :
    (appJsUrl = none →
      CheckCredentials.main appJsUrl extracted current = ⟨1, false⟩) ∧
    (∀ u, appJsUrl = some u → extracted = none →
      CheckCredentials.main appJsUrl extracted current = ⟨1, false⟩) ∧
    (∀ u n, appJsUrl = some u → extracted = some n →
      CheckCredentials.credentialsEqual n current →
      CheckCredentials.main appJsUrl extracted current = ⟨0, false⟩) ∧
    (∀ u n, appJsUrl = some u → extracted = some n →
      ¬ CheckCredentials.credentialsEqual n current →
      CheckCredentials.main appJsUrl extracted current = ⟨2, true⟩) := by
  refine ⟨?_, ?_, ?_, ?_⟩
  · rintro rfl; rfl
  · rintro u rfl rfl; rfl
  · rintro u n rfl rfl heq
    simp [CheckCredentials.main, heq]
  · rintro u n rfl rfl hne
    simp [CheckCredentials.main, hne]

/-- Claim C10 witness: concrete runs — missing bundle, failed extraction,
unchanged credentials, and changed credentials. -/
theorem CheckCredentials.main_write_discipline_witness :
    CheckCredentials.main none none ⟨none, none, none⟩ = ⟨1, false⟩ ∧
    CheckCredentials.main (some "https://app.listonic.com/x.js") none
      ⟨none, none, none⟩ = ⟨1, false⟩ ∧
    CheckCredentials.main (some "https://app.listonic.com/x.js")
      (some ⟨"listonicv2", "sec", "https://redirect"⟩)
      ⟨some "listonicv2", some "sec", some "https://redirect"⟩ =
      ⟨0, false⟩ ∧
    CheckCredentials.main (some "https://app.listonic.com/x.js")
      (some ⟨"listonicv2", "newsec", "https://redirect"⟩)
      ⟨some "listonicv2", some "sec", some "https://redirect"⟩ =
      ⟨2, true⟩ :=
  ⟨(CheckCredentials.main_write_discipline none none
      ⟨none, none, none⟩).1 rfl,
   (CheckCredentials.main_write_discipline _ none
      ⟨none, none, none⟩).2.1 _ rfl rfl,
   (CheckCredentials.main_write_discipline _ _ _).2.2.1 _ _ rfl rfl
     (by decide),
   (CheckCredentials.main_write_discipline _ _ _).2.2.2 _ _ rfl rfl
     (by decide)⟩
